import Mathlib

/-!
Shallow embedding of the control core of `src/xiao_mp3_player.ino`
(XIAO ESP32S3 Sense MP3 player, firmware v1.0.2, the first variant in the
file; the second variant v1.0.0 has the same control logic under the names
`handleButton` / `g_btn*`).

Modelling conventions:
* The global mutable variables (`g_state`, `g_track`, `g_volume`,
  `g_sdReady`, `g_sleeping`, the encoder/button debounce records and the
  LED-overlay timers) are gathered into one structure `Ctl`, threaded
  explicitly through each operation.
* `millis()` timestamps are `Nat`.  The sketch only ever subtracts an
  earlier timestamp from a later one, so `unsigned long` subtraction is
  embedded as truncated `Nat` subtraction (which agrees with the 32-bit
  unsigned machine subtraction whenever the earlier-timestamp invariant
  holds and the clock has not wrapped).
* C `int` values (`g_track`, `g_volume`, the `idx`/`delta` arguments) are
  `Int`; the C `%` operator truncates toward zero, embedded as `Int.tmod`.
* The external collaborators are an environment `Env`:
  `ex i` is `fileExists(TRACK_FILES[i])` (the track catalog is the fixed
  9-entry array `TRACK_FILES`, so existence is indexed by track number) and
  `connectOk i` is the result of `audio.connecttoFS(SD, TRACK_FILES[i])`.
* Commands issued to the audio engine (`connecttoFS`, `stopSong`,
  `pauseResume`, `setVolume`) are collected in an ordered `List AudioCmd`.
* `setLED`/`ledcWrite` are raw pin I/O with no feedback into control flow
  and are not part of the state; the float animation internals
  (`g_breathPhase`, `g_rainbowHue`) likewise do not influence any control
  decision and are left out.  `updateLED` instead reports which rendering
  layer is in effect this tick (`RenderChoice`), which is exactly the
  early-return priority structure of the source.
-/

-- ═══════════ Configuration constants (CONFIGURATION section of the sketch) ═══

def NUM_TRACKS : Int := 9
def VOLUME_DEFAULT : Int := 15
def VOLUME_MIN : Int := 0
def VOLUME_MAX : Int := 21
def VOLUME_STEP : Int := 1
def DEBOUNCE_BUTTON_MS : Nat := 50
def LONG_PRESS_MS : Nat := 500
def TRACK_COLOR_MS : Nat := 1500
def VOLUME_FLASH_MS : Nat := 200
def RAINBOW_INTERVAL_MS : Nat := 50

-- ═══════════ Player state enumeration ═══════════

inductive PState where
  | idle
  | playing
  | paused
  | error
deriving DecidableEq, Repr

-- ═══════════ Commands to the external audio engine ═══════════

inductive AudioCmd where
  | connect (track : Int)
  | stop
  | pauseResume
  | setVolume (v : Int)
deriving DecidableEq, Repr

-- ═══════════ Gesture classifications emitted by handleEncoderSwitch ═══════════

inductive Gesture where
  | shortPress
  | longPress
deriving DecidableEq, Repr

-- ═══════════ External environment: storage and audio-engine collaborators ═══

structure Env where
  ex : Int → Bool
  connectOk : Int → Bool

-- ═══════════ The controller state (the g_* globals) ═══════════

structure Ctl where
  state : PState
  track : Int
  volume : Int
  sdReady : Bool
  sleeping : Bool
  encLastCLK : Bool
  swPressStart : Nat
  swPressed : Bool
  swHandled : Bool
  lastAnimTime : Nat
  trackColorStart : Nat
  showingTrackColor : Bool
  volFlashStart : Nat
  showingVolFlash : Bool
deriving DecidableEq, Repr

-- ═══════════ LED overlay activation ═══════════

/-- Embeds `showTrackColor(idx)`: guard the index, set the LED to the track color
(pin I/O), arm the track-color overlay window. -/
def showTrackColor (now : Nat) (s : Ctl) (idx : Int) : Ctl :=
  if idx < 0 || NUM_TRACKS ≤ idx then s
  else { s with showingTrackColor := true, trackColorStart := now }

/-- Embeds `showVolumeFlash()`: set the LED white (pin I/O), arm the flash window. -/
def showVolumeFlash (now : Nat) (s : Ctl) : Ctl :=
  { s with showingVolFlash := true, volFlashStart := now }

-- ═══════════ Track-select fallback search (the while loop in playTrack) ═══════

/-- The `while (!fileExists(TRACK_FILES[g_track]) && tries < NUM_TRACKS)`
loop of `playTrack`: advance `g_track` by one modulo `NUM_TRACKS` until the
current track exists or `NUM_TRACKS` attempts are used up.  Returns the
final track, the final `tries` counter, and the ordered list of indices
that were probed and found missing. -/
def searchTrack (ex : Int → Bool) (track : Int) (tries : Nat) :
    Int × Nat × List Int :=
  if h : ex track = false ∧ tries < 9 then
    let r := searchTrack ex ((track + 1).tmod NUM_TRACKS) (tries + 1)
    (r.1, r.2.1, track :: r.2.2)
  else
    (track, tries, [])
termination_by 9 - tries
decreasing_by omega

-- ═══════════ playTrack ═══════════

/-- The index validation at the top of `playTrack`:
`if (idx < 0 || idx >= NUM_TRACKS) idx = 0;`. -/
def clampIdx (idx : Int) : Int :=
  if idx < 0 || NUM_TRACKS ≤ idx then 0 else idx

/-- Embeds `playTrack(idx)` (sketch lines 521–554): refuse if the SD card is not
ready; clamp an out-of-range index to 0; arm the track-color overlay; if
the selected file is missing, run the fallback search and fail to `ERROR`
after a full fruitless cycle; otherwise issue `connecttoFS` and move to
`PLAYING` on success or `ERROR` on failure. -/
def playTrack (env : Env) (now : Nat) (s : Ctl) (idx : Int) :
    Ctl × List AudioCmd :=
  if s.sdReady = false then ({ s with state := .error }, [])
  else
    let s2 := showTrackColor now { s with track := clampIdx idx } (clampIdx idx)
    if env.ex s2.track = false then
      let r := searchTrack env.ex s2.track 0
      let s3 := { s2 with track := r.1 }
      if 9 ≤ r.2.1 then ({ s3 with state := .error }, [])
      else
        let s4 := showTrackColor now s3 s3.track
        if env.connectOk s4.track then
          ({ s4 with state := .playing }, [AudioCmd.connect s4.track])
        else
          ({ s4 with state := .error }, [AudioCmd.connect s4.track])
    else
      if env.connectOk s2.track then
        ({ s2 with state := .playing }, [AudioCmd.connect s2.track])
      else
        ({ s2 with state := .error }, [AudioCmd.connect s2.track])

-- ═══════════ nextTrack ═══════════

/-- Embeds `nextTrack()` (sketch lines 556–560): `audio.stopSong()` then
`playTrack((g_track + 1) % NUM_TRACKS)`. -/
def nextTrack (env : Env) (now : Nat) (s : Ctl) : Ctl × List AudioCmd :=
  let r := playTrack env now s ((s.track + 1).tmod NUM_TRACKS)
  (r.1, AudioCmd.stop :: r.2)

-- ═══════════ enterSleep / togglePlayPause ═══════════

/-- Embeds `enterSleep()`: set the sleep flag and switch the LED off (pin I/O). -/
def enterSleep (s : Ctl) : Ctl :=
  { s with sleeping := true }

/-- Embeds `togglePlayPause()` (sketch lines 562–590). -/
def togglePlayPause (env : Env) (now : Nat) (s : Ctl) : Ctl × List AudioCmd :=
  match s.state with
  | .idle => playTrack env now s s.track
  | .playing => (enterSleep { s with state := .paused }, [AudioCmd.pauseResume])
  | .paused => ({ s with state := .playing }, [AudioCmd.pauseResume])
  | .error => playTrack env now s s.track

-- ═══════════ adjustVolume ═══════════

/-- Embeds the Arduino `constrain(amt, low, high)` macro. -/
def constrain (amt low high : Int) : Int :=
  if amt < low then low else if high < amt then high else amt

/-- Embeds `adjustVolume(delta)` (sketch lines 592–600): clamp, and only on an
actual change write the new volume to the audio engine, flash the LED and
arm the volume-flash overlay. -/
def adjustVolume (now : Nat) (s : Ctl) (delta : Int) : Ctl × List AudioCmd :=
  let newVol := constrain (s.volume + delta) VOLUME_MIN VOLUME_MAX
  if newVol ≠ s.volume then
    (showVolumeFlash now { s with volume := newVol }, [AudioCmd.setVolume newVol])
  else
    (s, [])

-- ═══════════ wakeUp ═══════════

/-- Embeds `wakeUp()` (sketch lines 445–463): clear the sleep flag, re-read the
encoder CLK baseline (`clkNow` is the `digitalRead(PIN_ENC_CLK)` result),
clear the button press record, then resume from `PAUSED` via
`pauseResume` or start a fresh play of the current track from `IDLE`. -/
def wakeUp (env : Env) (now : Nat) (clkNow : Bool) (s : Ctl) :
    Ctl × List AudioCmd :=
  let s1 := { s with sleeping := false, encLastCLK := clkNow,
                     swPressed := false, swHandled := false }
  if s1.state = .paused then
    ({ s1 with state := .playing }, [AudioCmd.pauseResume])
  else if s1.state = .idle then
    playTrack env now s1 s1.track
  else
    (s1, [])

-- ═══════════ handleEncoderSwitch ═══════════

/-- Embeds `handleEncoderSwitch()` (sketch lines 616–645): one poll of the button
line.  `pressed` is `!digitalRead(PIN_ENC_SW)` and `now` is `millis()`.
The three sequential blocks of the source (press edge, held long-press
check, release) are threaded in order.  The returned `List Gesture`
records which classified gestures the call acted on. -/
def handleEncoderSwitch (env : Env) (pressed : Bool) (now : Nat) (s : Ctl) :
    Ctl × List AudioCmd × List Gesture :=
  -- Switch just pressed
  let sA := if pressed && !s.swPressed then
              { s with swPressStart := now, swPressed := true, swHandled := false }
            else s
  -- Switch being held - check for long press
  let held :=
    if pressed && sA.swPressed && !sA.swHandled then
      if LONG_PRESS_MS ≤ now - sA.swPressStart then
        let r := nextTrack env now sA
        ({ r.1 with swHandled := true }, r.2, [Gesture.longPress])
      else (sA, [], [])
    else (sA, [], [])
  let sB := held.1
  -- Switch released
  if !pressed && sB.swPressed then
    if !sB.swHandled && DEBOUNCE_BUTTON_MS ≤ now - sB.swPressStart then
      let r := togglePlayPause env now sB
      ({ r.1 with swPressed := false, swHandled := false },
       held.2.1 ++ r.2, held.2.2 ++ [Gesture.shortPress])
    else
      ({ sB with swPressed := false, swHandled := false }, held.2.1, held.2.2)
  else
    (sB, held.2.1, held.2.2)

/-- Run a sequence of button polls (`(pressed, now)` samples) through
`handleEncoderSwitch`, collecting all issued audio commands and all
classified gestures in order. -/
def runSwitch (env : Env) (s : Ctl) :
    List (Bool × Nat) → Ctl × List AudioCmd × List Gesture
  | [] => (s, [], [])
  | (p, t) :: rest =>
    let r := handleEncoderSwitch env p t s
    let r2 := runSwitch env r.1 rest
    (r2.1, r.2.1 ++ r2.2.1, r.2.2 ++ r2.2.2)

-- ═══════════ updateLED ═══════════

/-- Which rendering layer is in effect at a render tick: the early-return
priority chain of `updateLED` (sketch lines 397–431). -/
inductive RenderChoice where
  | volFlash
  | trackColor
  | steadyPlaying
  | steadyIdlePaused
  | steadyError
deriving DecidableEq, Repr

/-- The steady-state pattern selected by the `switch (g_state)` at the end
of `updateLED`. -/
def steadyChoice : PState → RenderChoice
  | .playing => .steadyPlaying
  | .idle => .steadyIdlePaused
  | .paused => .steadyIdlePaused
  | .error => .steadyError

/-- Steady-state stage of `updateLED`: the `switch (g_state)`.  In
`PLAYING` the breathing animation only advances when the rainbow interval
has elapsed (the float phase itself is pin I/O, not control state). -/
def updateLEDSteady (now : Nat) (s : Ctl) : Ctl × RenderChoice :=
  match s.state with
  | .playing =>
    if RAINBOW_INTERVAL_MS ≤ now - s.lastAnimTime then
      ({ s with lastAnimTime := now }, .steadyPlaying)
    else (s, .steadyPlaying)
  | .idle => (s, .steadyIdlePaused)
  | .paused => (s, .steadyIdlePaused)
  | .error => (s, .steadyError)

/-- Track-color stage of `updateLED`: expire-or-return-early, falling
through to the steady-state stage. -/
def updateLEDTrack (now : Nat) (s : Ctl) : Ctl × RenderChoice :=
  if s.showingTrackColor then
    if TRACK_COLOR_MS ≤ now - s.trackColorStart then
      updateLEDSteady now { s with showingTrackColor := false }
    else (s, .trackColor)
  else updateLEDSteady now s

/-- Embeds `updateLED()` (sketch lines 397–431): volume-flash stage first, then
track color, then the steady-state switch. -/
def updateLED (now : Nat) (s : Ctl) : Ctl × RenderChoice :=
  if s.showingVolFlash then
    if VOLUME_FLASH_MS ≤ now - s.volFlashStart then
      updateLEDTrack now { s with showingVolFlash := false }
    else (s, .volFlash)
  else updateLEDTrack now s

-- ═══════════ Audio-engine callback (end of track) ═══════════

/-- Embeds `audio_eof_mp3` (sketch lines 709–712): end-of-track notification,
skips to the next track. -/
def audioEofMp3 (env : Env) (now : Nat) (s : Ctl) : Ctl × List AudioCmd :=
  nextTrack env now s

-- ═══════════ Sample states and environments used in concrete witnesses ═══════

/-- A startup-like controller state (globals after `setup()` with the SD
card mounted): `STATE_IDLE`, track 0, `VOLUME_DEFAULT`. -/
def ctl0 : Ctl :=
  { state := .idle, track := 0, volume := VOLUME_DEFAULT, sdReady := true,
    sleeping := false, encLastCLK := true, swPressStart := 0,
    swPressed := false, swHandled := false, lastAnimTime := 0,
    trackColorStart := 0, showingTrackColor := false,
    volFlashStart := 0, showingVolFlash := false }

/-- An environment whose storage has exactly track index 5 and whose audio
engine always connects. -/
def env5 : Env := ⟨fun j => j == 5, fun _ => true⟩

/-- An environment whose storage has every track and whose audio engine
always connects. -/
def envAll : Env := ⟨fun _ => true, fun _ => true⟩

/-- The track-index invariant: the current track is a valid catalog
index. -/
def trackInv (s : Ctl) : Prop := 0 ≤ s.track ∧ s.track < NUM_TRACKS

-- ═══════════ Frame lemmas for the LED overlay helpers ═══════════

theorem showTrackColor_track (now : Nat) (s : Ctl) (i : Int) :
    (showTrackColor now s i).track = s.track := by
  unfold showTrackColor; split <;> rfl

theorem showTrackColor_state (now : Nat) (s : Ctl) (i : Int) :
    (showTrackColor now s i).state = s.state := by
  unfold showTrackColor; split <;> rfl

theorem showTrackColor_sdReady (now : Nat) (s : Ctl) (i : Int) :
    (showTrackColor now s i).sdReady = s.sdReady := by
  unfold showTrackColor; split <;> rfl

theorem showTrackColor_of_range (now : Nat) (s : Ctl) (i : Int)
    (h0 : 0 ≤ i) (h9 : i < NUM_TRACKS) :
    showTrackColor now s i =
      { s with showingTrackColor := true, trackColorStart := now } := by
  unfold showTrackColor
  rw [if_neg]
  simp only [Bool.or_eq_true, decide_eq_true_eq, not_or]
  omega

theorem clampIdx_range (i : Int) : 0 ≤ clampIdx i ∧ clampIdx i < NUM_TRACKS := by
  unfold clampIdx NUM_TRACKS
  split
  · exact ⟨le_refl 0, by norm_num⟩
  · next h =>
    simp only [Bool.or_eq_true, decide_eq_true_eq, not_or] at h
    omega

/-- An in-range index passes the validation untouched. -/
theorem clampIdx_of_range (i : Int) (h0 : 0 ≤ i) (h9 : i < NUM_TRACKS) :
    clampIdx i = i := by
  unfold clampIdx
  rw [if_neg]
  simp only [Bool.or_eq_true, decide_eq_true_eq, not_or]
  omega

/-- An out-of-range index is mapped to 0 by the validation. -/
theorem clampIdx_of_out (i : Int) (h : i < 0 ∨ NUM_TRACKS ≤ i) :
    clampIdx i = 0 := by
  unfold clampIdx
  rw [if_pos]
  simp only [Bool.or_eq_true, decide_eq_true_eq]
  exact h

-- ═══════════ Lemmas about the fallback search ═══════════

/-- If the search stops before exhausting `NUM_TRACKS` attempts, the track
it stopped on exists. -/
theorem searchTrack_exit (ex : Int → Bool) :
    ∀ n tries t, 9 - tries ≤ n →
      (searchTrack ex t tries).2.1 < 9 → ex (searchTrack ex t tries).1 = true := by
  intro n
  induction n with
  | zero =>
    intro tries t h
    rw [searchTrack, dif_neg (by omega ∘ And.right : ¬(ex t = false ∧ tries < 9))]
    intro hlt
    exact absurd (show tries < 9 from hlt) (by omega)
  | succ n ih =>
    intro tries t h
    rw [searchTrack]
    by_cases hc : ex t = false ∧ tries < 9
    · rw [dif_pos hc]
      exact ih (tries + 1) _ (by omega)
    · rw [dif_neg hc]
      intro hlt
      cases hx : ex t with
      | false => exact absurd ⟨hx, hlt⟩ hc
      | true => rfl

/-- The search keeps the track index inside `[0, NUM_TRACKS)`. -/
theorem searchTrack_range (ex : Int → Bool) :
    ∀ n tries t, 9 - tries ≤ n → 0 ≤ t → t < 9 →
      0 ≤ (searchTrack ex t tries).1 ∧ (searchTrack ex t tries).1 < 9 := by
  intro n
  induction n with
  | zero =>
    intro tries t h h0 h9
    rw [searchTrack, dif_neg (by omega ∘ And.right : ¬(ex t = false ∧ tries < 9))]
    exact ⟨h0, h9⟩
  | succ n ih =>
    intro tries t h h0 h9
    rw [searchTrack]
    by_cases hc : ex t = false ∧ tries < 9
    · rw [dif_pos hc]
      exact ih (tries + 1) _ (by omega)
        (Int.tmod_nonneg _ (by omega)) (Int.tmod_lt_of_pos _ (by decide))
    · rw [dif_neg hc]
      exact ⟨h0, h9⟩

/-- On a catalog with no existing track the search always burns the full
`NUM_TRACKS` attempts. -/
theorem searchTrack_allFalse (ex : Int → Bool) (hall : ∀ j, ex j = false) :
    ∀ n tries t, 9 - tries ≤ n → tries ≤ 9 →
      (searchTrack ex t tries).2.1 = 9 := by
  intro n
  induction n with
  | zero =>
    intro tries t h h9
    rw [searchTrack, dif_neg (by omega ∘ And.right : ¬(ex t = false ∧ tries < 9))]
    show tries = 9
    omega
  | succ n ih =>
    intro tries t h h9
    rw [searchTrack]
    by_cases hc : tries < 9
    · rw [dif_pos ⟨hall t, hc⟩]
      exact ih (tries + 1) _ (by omega) (by omega)
    · rw [dif_neg (fun hc2 => hc hc2.2)]
      show tries = 9
      omega

-- ═══════════ Case analysis of playTrack ═══════════

/-- Evaluates `playTrack` with the SD card unavailable: immediate `ERROR`, no
command. -/
theorem playTrack_noSD (env : Env) (now : Nat) (s : Ctl) (i : Int)
    (h : s.sdReady = false) :
    playTrack env now s i = ({ s with state := .error }, []) := by
  unfold playTrack
  rw [if_pos h]

/-- Evaluates `playTrack` when the validated track exists and the connect
succeeds. -/
theorem playTrack_found_ok (env : Env) (now : Nat) (s : Ctl) (i : Int)
    (hsd : s.sdReady = true) (hex : env.ex (clampIdx i) = true)
    (hcok : env.connectOk (clampIdx i) = true) :
    playTrack env now s i =
      ({ s with track := clampIdx i, showingTrackColor := true,
                trackColorStart := now, state := .playing },
       [AudioCmd.connect (clampIdx i)]) := by
  have hr := clampIdx_range i
  unfold playTrack
  rw [if_neg (by simp [hsd])]
  rw [showTrackColor_of_range now _ _ hr.1 hr.2]
  simp only
  rw [if_neg (by simp [hex])]
  rw [if_pos (by simp [hcok])]

/-- Evaluates `playTrack` when the validated track exists but the connect
fails. -/
theorem playTrack_found_fail (env : Env) (now : Nat) (s : Ctl) (i : Int)
    (hsd : s.sdReady = true) (hex : env.ex (clampIdx i) = true)
    (hcok : env.connectOk (clampIdx i) = false) :
    playTrack env now s i =
      ({ s with track := clampIdx i, showingTrackColor := true,
                trackColorStart := now, state := .error },
       [AudioCmd.connect (clampIdx i)]) := by
  have hr := clampIdx_range i
  unfold playTrack
  rw [if_neg (by simp [hsd])]
  rw [showTrackColor_of_range now _ _ hr.1 hr.2]
  simp only
  rw [if_neg (by simp [hex])]
  rw [if_neg (by simp [hcok])]

/-- Evaluates `playTrack` when the validated track is missing and a full search
cycle finds nothing: `ERROR`, no command, track left where the search
ended. -/
theorem playTrack_missing_exhausted (env : Env) (now : Nat) (s : Ctl) (i : Int)
    (hsd : s.sdReady = true) (hex : env.ex (clampIdx i) = false)
    (htries : 9 ≤ (searchTrack env.ex (clampIdx i) 0).2.1) :
    playTrack env now s i =
      ({ s with track := (searchTrack env.ex (clampIdx i) 0).1,
                showingTrackColor := true, trackColorStart := now,
                state := .error },
       []) := by
  have hr := clampIdx_range i
  unfold playTrack
  rw [if_neg (by simp [hsd])]
  rw [showTrackColor_of_range now _ _ hr.1 hr.2]
  simp only
  rw [if_pos (by simp [hex])]
  rw [if_pos (by simpa using htries)]

/-- Evaluates `playTrack` when the validated track is missing, the search
finds an existing track, and the connect on it succeeds. -/
theorem playTrack_missing_found_ok (env : Env) (now : Nat) (s : Ctl) (i : Int)
    (hsd : s.sdReady = true) (hex : env.ex (clampIdx i) = false)
    (htries : (searchTrack env.ex (clampIdx i) 0).2.1 < 9)
    (hcok : env.connectOk (searchTrack env.ex (clampIdx i) 0).1 = true) :
    playTrack env now s i =
      ({ s with track := (searchTrack env.ex (clampIdx i) 0).1,
                showingTrackColor := true, trackColorStart := now,
                state := .playing },
       [AudioCmd.connect (searchTrack env.ex (clampIdx i) 0).1]) := by
  have hr := clampIdx_range i
  have hsr := searchTrack_range env.ex 9 0 (clampIdx i) (by omega) hr.1
    (show clampIdx i < 9 from hr.2)
  unfold playTrack
  rw [if_neg (by simp [hsd])]
  rw [showTrackColor_of_range now _ _ hr.1 hr.2]
  simp only
  rw [if_pos (by simp [hex])]
  rw [if_neg (by simpa using Nat.not_le.mpr htries)]
  rw [showTrackColor_of_range now _ _ (by simpa using hsr.1)
    (show _ < NUM_TRACKS from by simpa using hsr.2)]
  simp only
  rw [if_pos (by simp [hcok])]

/-- Evaluates `playTrack` when the validated track is missing, the search
finds an existing track, and the connect on it fails. -/
theorem playTrack_missing_found_fail (env : Env) (now : Nat) (s : Ctl) (i : Int)
    (hsd : s.sdReady = true) (hex : env.ex (clampIdx i) = false)
    (htries : (searchTrack env.ex (clampIdx i) 0).2.1 < 9)
    (hcok : env.connectOk (searchTrack env.ex (clampIdx i) 0).1 = false) :
    playTrack env now s i =
      ({ s with track := (searchTrack env.ex (clampIdx i) 0).1,
                showingTrackColor := true, trackColorStart := now,
                state := .error },
       [AudioCmd.connect (searchTrack env.ex (clampIdx i) 0).1]) := by
  have hr := clampIdx_range i
  have hsr := searchTrack_range env.ex 9 0 (clampIdx i) (by omega) hr.1
    (show clampIdx i < 9 from hr.2)
  unfold playTrack
  rw [if_neg (by simp [hsd])]
  rw [showTrackColor_of_range now _ _ hr.1 hr.2]
  simp only
  rw [if_pos (by simp [hex])]
  rw [if_neg (by simpa using Nat.not_le.mpr htries)]
  rw [showTrackColor_of_range now _ _ (by simpa using hsr.1)
    (show _ < NUM_TRACKS from by simpa using hsr.2)]
  simp only
  rw [if_neg (by simp [hcok])]

-- ═══════════ Volume helper lemmas ═══════════

/-- A clamped no-op leaves the whole controller state untouched and issues
no command. -/
theorem adjustVolume_noop (now : Nat) (s : Ctl) (delta : Int)
    (h : constrain (s.volume + delta) VOLUME_MIN VOLUME_MAX = s.volume) :
    adjustVolume now s delta = (s, []) := by
  unfold adjustVolume
  rw [if_neg (by simp [h])]

/-- When the stepped value stays inside the bounds, `adjustVolume` lands
exactly on it. -/
theorem adjustVolume_inBounds (now : Nat) (s : Ctl) (d : Int)
    (h0 : 0 ≤ s.volume + d) (h1 : s.volume + d ≤ VOLUME_MAX) :
    (adjustVolume now s d).1.volume = s.volume + d := by
  simp only [VOLUME_MAX] at h1
  have hcon : constrain (s.volume + d) VOLUME_MIN VOLUME_MAX = s.volume + d := by
    unfold constrain VOLUME_MIN VOLUME_MAX
    rw [if_neg (by omega), if_neg (by omega)]
  unfold adjustVolume
  rw [hcon]
  by_cases hd : s.volume + d = s.volume
  · rw [if_neg (by simp [hd])]
    simp [hd]
  · rw [if_pos (by simp [hd])]
    simp [showVolumeFlash]

/-- A decrease from volume 0 is a complete no-op. -/
theorem adjustVolume_floor (now : Nat) (s : Ctl) (d : Int)
    (h0 : s.volume = 0) (hd : d ≤ 0) :
    adjustVolume now s d = (s, []) := by
  apply adjustVolume_noop
  unfold constrain VOLUME_MIN VOLUME_MAX
  split
  · omega
  · split <;> omega

-- ═══════════ Claim C1 ═══════════

/-- C1: with the SD card ready and the existence check succeeding exactly
for track index 5, `playTrack(0)` probes the missing indices 0,1,2,3,4 in
order (the search trace), selects index 5, and ends in `PLAYING` with
current track 5, having issued exactly the connect for track 5. -/
theorem playTrack_fallback_track5 (env : Env) (now : Nat) (s : Ctl)
    (hex : ∀ j, env.ex j = (j == 5)) (hc : env.connectOk 5 = true)
    (hsd : s.sdReady = true) :
    searchTrack env.ex 0 0 = (5, 5, [0, 1, 2, 3, 4]) ∧
    playTrack env now s 0 =
      ({ s with track := 5, state := .playing,
                showingTrackColor := true, trackColorStart := now },
       [AudioCmd.connect 5]) := by
  obtain ⟨ex, cok⟩ := env
  simp only at hex hc
  have hx : ex = fun j => j == 5 := funext hex
  subst hx
  have hsearch : searchTrack (fun j => j == 5) 0 0 = (5, 5, [0, 1, 2, 3, 4]) := by
    simp [searchTrack, NUM_TRACKS]
    decide
  refine ⟨hsearch, ?_⟩
  obtain ⟨st, tr, vol, sd, slp, clk, sps, swp, swh, lat, tcs, stc, vfs, svf⟩ := s
  simp only at hsd
  subst hsd
  simp [playTrack, showTrackColor, clampIdx, NUM_TRACKS, hsearch, hc]

/-- Witness for C1 at the startup state. -/
theorem playTrack_fallback_track5_witness :
    searchTrack env5.ex 0 0 = (5, 5, [0, 1, 2, 3, 4]) ∧
    playTrack env5 0 ctl0 0 =
      ({ ctl0 with track := 5, state := .playing,
                   showingTrackColor := true, trackColorStart := 0 },
       [AudioCmd.connect 5]) :=
  playTrack_fallback_track5 env5 0 ctl0 (fun _ => rfl) rfl rfl

-- ═══════════ Claim C2 ═══════════

/-- C2: if no track file in the catalog exists, `playTrack(i)` ends in
`ERROR` and issues no audio-engine command at all (in particular no
connect), for every starting index `i` and every prior state. -/
theorem playTrack_allMissing_error (env : Env) (now : Nat) (s : Ctl) (i : Int)
    (hall : ∀ j, env.ex j = false) :
    (playTrack env now s i).1.state = .error ∧ (playTrack env now s i).2 = [] := by
  cases hsd : s.sdReady with
  | false =>
    rw [playTrack_noSD env now s i hsd]
    exact ⟨rfl, rfl⟩
  | true =>
    have h9 : (searchTrack env.ex (clampIdx i) 0).2.1 = 9 :=
      searchTrack_allFalse env.ex hall 9 0 _ (by omega) (by omega)
    rw [playTrack_missing_exhausted env now s i hsd (hall _) (le_of_eq h9.symm)]
    exact ⟨rfl, rfl⟩

/-- Witness for C2: empty catalog, starting index 3. -/
theorem playTrack_allMissing_error_witness :
    (playTrack ⟨fun _ => false, fun _ => true⟩ 0 ctl0 3).1.state = .error ∧
    (playTrack ⟨fun _ => false, fun _ => true⟩ 0 ctl0 3).2 = [] :=
  playTrack_allMissing_error ⟨fun _ => false, fun _ => true⟩ 0 ctl0 3 (fun _ => rfl)

-- ═══════════ Claim C4 ═══════════

/-- C4: if `constrain(volume + delta, 0, 21)` equals the current volume,
`adjustVolume(delta)` changes nothing at all: the volume is unchanged, no
`setVolume` command is issued, and the volume-flash overlay flag and timer
are untouched (the entire state is returned as-is). -/
theorem adjustVolume_clampedNoOp_frame (now : Nat) (s : Ctl) (delta : Int)
    (h : constrain (s.volume + delta) VOLUME_MIN VOLUME_MAX = s.volume) :
    adjustVolume now s delta = (s, []) :=
  adjustVolume_noop now s delta h

/-- Witness for C4: at volume 21 a further increase is a clamped no-op. -/
theorem adjustVolume_clampedNoOp_frame_witness :
    adjustVolume 0 { ctl0 with volume := 21 } 5 = ({ ctl0 with volume := 21 }, []) :=
  adjustVolume_clampedNoOp_frame 0 { ctl0 with volume := 21 } 5 (by decide)

-- ═══════════ Claim C5 ═══════════

/-- C5 as stated is false: from the non-boundary volume 1, `adjustVolume(21)`
then `adjustVolume(-21)` ends at volume 0, not 1 (the first step clamps at
the top of the range, so the opposite step undershoots). -/
theorem volume_roundTrip_counterexample :
    0 < ({ ctl0 with volume := 1 } : Ctl).volume ∧
    ({ ctl0 with volume := 1 } : Ctl).volume < VOLUME_MAX ∧
    (adjustVolume 0 (adjustVolume 0 { ctl0 with volume := 1 } 21).1 (-21)).1.volume ≠
      ({ ctl0 with volume := 1 } : Ctl).volume := by
  decide

/-- C5 amended: `adjustVolume(x)` then `adjustVolume(-x)` returns the
volume to its original value whenever the intermediate sum `volume + x`
itself stays within `[0, MAX]` (with the code's step of `±1` this covers
every non-boundary start); and from volume 0 a further decrease leaves the
volume at 0 and does not trigger the volume-flash overlay (full no-op). -/
theorem volume_roundTrip_amended :
    (∀ (n1 n2 : Nat) (s : Ctl) (x : Int),
        0 ≤ s.volume → s.volume ≤ VOLUME_MAX →
        0 ≤ s.volume + x → s.volume + x ≤ VOLUME_MAX →
        (adjustVolume n2 (adjustVolume n1 s x).1 (-x)).1.volume = s.volume) ∧
    (∀ (n : Nat) (s : Ctl) (d : Int), s.volume = 0 → d ≤ 0 →
        adjustVolume n s d = (s, [])) := by
  constructor
  · intro n1 n2 s x h0 h1 h2 h3
    have e1 : (adjustVolume n1 s x).1.volume = s.volume + x :=
      adjustVolume_inBounds n1 s x h2 h3
    have e2 : (adjustVolume n2 (adjustVolume n1 s x).1 (-x)).1.volume =
        (adjustVolume n1 s x).1.volume + -x := by
      apply adjustVolume_inBounds <;> rw [e1] <;> omega
    rw [e2, e1]
    omega
  · exact fun n s d h0 hd => adjustVolume_floor n s d h0 hd

/-- Witness for C5 amended: a `+3` / `-3` round trip from volume 15, and a
decrease from volume 0. -/
theorem volume_roundTrip_amended_witness :
    (adjustVolume 1 (adjustVolume 0 ctl0 3).1 (-3)).1.volume = ctl0.volume ∧
    adjustVolume 0 { ctl0 with volume := 0 } (-1) = ({ ctl0 with volume := 0 }, []) :=
  ⟨volume_roundTrip_amended.1 0 1 ctl0 3 (by decide) (by decide) (by decide) (by decide),
   volume_roundTrip_amended.2 0 { ctl0 with volume := 0 } (-1) (by decide) (by decide)⟩

/-- Theorem: `playTrack` reaches `PLAYING` only through the `connecttoFS` branch:
the final track exists, the connect on it succeeded, and the only issued
command is that connect. -/
theorem playTrack_playing (env : Env) (now : Nat) (s : Ctl) (i : Int) :
    (playTrack env now s i).1.state = .playing →
    env.ex (playTrack env now s i).1.track = true ∧
    env.connectOk (playTrack env now s i).1.track = true ∧
    (playTrack env now s i).2 = [AudioCmd.connect (playTrack env now s i).1.track] := by
  cases hsd : s.sdReady with
  | false =>
    rw [playTrack_noSD env now s i hsd]
    intro h
    simp at h
  | true =>
    cases hex : env.ex (clampIdx i) with
    | true =>
      cases hcok : env.connectOk (clampIdx i) with
      | true =>
        rw [playTrack_found_ok env now s i hsd hex hcok]
        exact fun _ => ⟨hex, hcok, rfl⟩
      | false =>
        rw [playTrack_found_fail env now s i hsd hex hcok]
        intro h
        simp at h
    | false =>
      by_cases htries : 9 ≤ (searchTrack env.ex (clampIdx i) 0).2.1
      · rw [playTrack_missing_exhausted env now s i hsd hex htries]
        intro h
        simp at h
      · have htries' := Nat.not_le.mp htries
        have hfin : env.ex (searchTrack env.ex (clampIdx i) 0).1 = true :=
          searchTrack_exit env.ex 9 0 _ (by omega) htries'
        cases hcok : env.connectOk (searchTrack env.ex (clampIdx i) 0).1 with
        | true =>
          rw [playTrack_missing_found_ok env now s i hsd hex htries' hcok]
          exact fun _ => ⟨hfin, hcok, rfl⟩
        | false =>
          rw [playTrack_missing_found_fail env now s i hsd hex htries' hcok]
          intro h
          simp at h

-- ═══════════ Claim C3 ═══════════

/-- C3: the player never enters `PLAYING` without a successfully opened
stream.  Every way `playTrack` (and hence `nextTrack`, which routes
through it after a stop) ends in `PLAYING` has just issued a `connecttoFS`
on an existing track and seen it succeed; and the two `PAUSED → PLAYING`
transitions (`togglePlayPause`, `wakeUp`) are pure `pauseResume` resumes
of the previously opened stream, with no connect. -/
theorem playing_requires_connect :
    (∀ (env : Env) (now : Nat) (s : Ctl) (i : Int),
        (playTrack env now s i).1.state = .playing →
        env.ex (playTrack env now s i).1.track = true ∧
        env.connectOk (playTrack env now s i).1.track = true ∧
        (playTrack env now s i).2 =
          [AudioCmd.connect (playTrack env now s i).1.track]) ∧
    (∀ (env : Env) (now : Nat) (s : Ctl),
        (nextTrack env now s).1.state = .playing →
        env.ex (nextTrack env now s).1.track = true ∧
        env.connectOk (nextTrack env now s).1.track = true ∧
        (nextTrack env now s).2 =
          [AudioCmd.stop, AudioCmd.connect (nextTrack env now s).1.track]) ∧
    (∀ (env : Env) (now : Nat) (s : Ctl), s.state = .paused →
        togglePlayPause env now s =
          ({ s with state := .playing }, [AudioCmd.pauseResume])) ∧
    (∀ (env : Env) (now : Nat) (clk : Bool) (s : Ctl), s.state = .paused →
        wakeUp env now clk s =
          ({ s with sleeping := false, encLastCLK := clk, swPressed := false,
                    swHandled := false, state := .playing },
           [AudioCmd.pauseResume])) := by
  refine ⟨playTrack_playing, ?_, ?_, ?_⟩
  · intro env now s h
    obtain ⟨h1, h2, h3⟩ := playTrack_playing env now s ((s.track + 1).tmod NUM_TRACKS) h
    refine ⟨h1, h2, ?_⟩
    rw [show (nextTrack env now s).2 =
      AudioCmd.stop :: (playTrack env now s ((s.track + 1).tmod NUM_TRACKS)).2 from rfl, h3]
    rfl
  · intro env now s hp
    simp [togglePlayPause, hp]
  · intro env now clk s hp
    simp [wakeUp, hp]

/-- Witness for C3. -/
theorem playing_requires_connect_witness :
    (envAll.ex (playTrack envAll 0 ctl0 0).1.track = true ∧
     envAll.connectOk (playTrack envAll 0 ctl0 0).1.track = true ∧
     (playTrack envAll 0 ctl0 0).2 =
       [AudioCmd.connect (playTrack envAll 0 ctl0 0).1.track]) ∧
    togglePlayPause envAll 0 { ctl0 with state := .paused } =
      ({ { ctl0 with state := .paused } with state := .playing },
       [AudioCmd.pauseResume]) ∧
    wakeUp envAll 0 true { ctl0 with state := .paused } =
      ({ { ctl0 with state := .paused } with
            sleeping := false, encLastCLK := true, swPressed := false,
            swHandled := false, state := .playing },
       [AudioCmd.pauseResume]) :=
  ⟨playing_requires_connect.1 envAll 0 ctl0 0
    (by rw [playTrack_found_ok envAll 0 ctl0 0 rfl rfl rfl]),
   playing_requires_connect.2.2.1 envAll 0 { ctl0 with state := .paused } rfl,
   playing_requires_connect.2.2.2 envAll 0 true { ctl0 with state := .paused } rfl⟩

/-- Frame: `playTrack` never touches the sleep flag, the encoder/button debounce
records, the volume, or the volume-flash overlay. -/
theorem playTrack_frame (env : Env) (now : Nat) (s : Ctl) (i : Int) :
    (playTrack env now s i).1.sleeping = s.sleeping ∧
    (playTrack env now s i).1.swPressed = s.swPressed ∧
    (playTrack env now s i).1.swHandled = s.swHandled ∧
    (playTrack env now s i).1.swPressStart = s.swPressStart ∧
    (playTrack env now s i).1.encLastCLK = s.encLastCLK ∧
    (playTrack env now s i).1.volume = s.volume ∧
    (playTrack env now s i).1.sdReady = s.sdReady ∧
    (playTrack env now s i).1.showingVolFlash = s.showingVolFlash ∧
    (playTrack env now s i).1.volFlashStart = s.volFlashStart := by
  unfold playTrack showTrackColor
  dsimp only
  repeat' split
  all_goals simp_all

-- ═══════════ Claim C7 ═══════════

/-- C7: waking from sleep in `PAUSED` issues exactly one `pauseResume`
(no fresh connect) and moves to `PLAYING`; waking in `IDLE` runs a fresh
`playTrack` on the current track index (under a ready card with the
current track present and connecting, the single issued command is the
connect for that track); and in every case the sleep flag is cleared and
the encoder CLK baseline and button press record are re-armed in the
state handed back to the input handlers. -/
theorem wakeUp_spec :
    (∀ (env : Env) (now : Nat) (clk : Bool) (s : Ctl),
        s.sleeping = true → s.state = .paused →
        wakeUp env now clk s =
          ({ s with sleeping := false, encLastCLK := clk, swPressed := false,
                    swHandled := false, state := .playing },
           [AudioCmd.pauseResume])) ∧
    (∀ (env : Env) (now : Nat) (clk : Bool) (s : Ctl),
        s.sleeping = true → s.state = .idle →
        wakeUp env now clk s =
          playTrack env now
            { s with sleeping := false, encLastCLK := clk, swPressed := false,
                     swHandled := false } s.track) ∧
    (∀ (env : Env) (now : Nat) (clk : Bool) (s : Ctl),
        s.sleeping = true → s.state = .idle → s.sdReady = true →
        0 ≤ s.track → s.track < NUM_TRACKS →
        env.ex s.track = true → env.connectOk s.track = true →
        (wakeUp env now clk s).2 = [AudioCmd.connect s.track] ∧
        (wakeUp env now clk s).1.state = .playing ∧
        (wakeUp env now clk s).1.track = s.track) ∧
    (∀ (env : Env) (now : Nat) (clk : Bool) (s : Ctl),
        (wakeUp env now clk s).1.sleeping = false ∧
        (wakeUp env now clk s).1.swPressed = false ∧
        (wakeUp env now clk s).1.swHandled = false ∧
        (wakeUp env now clk s).1.encLastCLK = clk) := by
  have hidle : ∀ (env : Env) (now : Nat) (clk : Bool) (s : Ctl),
      s.state = .idle →
      wakeUp env now clk s =
        playTrack env now
          { s with sleeping := false, encLastCLK := clk, swPressed := false,
                   swHandled := false } s.track := by
    intro env now clk s hp
    simp [wakeUp, hp]
  refine ⟨?_, ?_, ?_, ?_⟩
  · intro env now clk s _ hp
    simp [wakeUp, hp]
  · intro env now clk s _ hp
    exact hidle env now clk s hp
  · intro env now clk s hslp hp hsd h0 h9 hex hcok
    have hclamp : clampIdx s.track = s.track := clampIdx_of_range s.track h0 h9
    rw [hidle env now clk s hp]
    rw [playTrack_found_ok env now _ s.track (by simpa using hsd)
      (by rw [hclamp]; exact hex) (by rw [hclamp]; exact hcok)]
    exact ⟨by rw [hclamp], rfl, by rw [hclamp]⟩
  · intro env now clk s
    cases hp : s.state with
    | paused => simp [wakeUp, hp]
    | idle =>
      rw [hidle env now clk s hp]
      have hf := playTrack_frame env now
        { s with sleeping := false, encLastCLK := clk, swPressed := false,
                 swHandled := false } s.track
      exact ⟨by rw [hf.1], by rw [hf.2.1], by rw [hf.2.2.1], by rw [hf.2.2.2.2.1]⟩
    | playing => simp [wakeUp, hp]
    | error => simp [wakeUp, hp]

/-- Witness for C7 at concrete paused and idle sleep states. -/
theorem wakeUp_spec_witness :
    wakeUp envAll 7 true { ctl0 with state := .paused, sleeping := true } =
      ({ { ctl0 with state := .paused, sleeping := true } with
            sleeping := false, encLastCLK := true, swPressed := false,
            swHandled := false, state := .playing },
       [AudioCmd.pauseResume]) ∧
    (wakeUp envAll 7 true { ctl0 with sleeping := true }).2 =
      [AudioCmd.connect ({ ctl0 with sleeping := true } : Ctl).track] ∧
    (wakeUp envAll 7 true { ctl0 with sleeping := true }).1.state = .playing :=
  ⟨wakeUp_spec.1 envAll 7 true _ rfl rfl,
   (wakeUp_spec.2.2.1 envAll 7 true { ctl0 with sleeping := true } rfl rfl rfl
      (by decide) (by decide) rfl rfl).1,
   (wakeUp_spec.2.2.1 envAll 7 true { ctl0 with sleeping := true } rfl rfl rfl
      (by decide) (by decide) rfl rfl).2.1⟩

-- ═══════════ Claim C9 ═══════════

/-- C9: a long press that fires while the player is in `ERROR` performs
the skip-to-next action: the call routes to `nextTrack` (stop, advance the
index modulo `NUM_TRACKS`, attempt to play the advanced index) and marks
the press handled — it is not a retry of the current track and not a
no-op.  For an in-range current track the attempted index differs from
the current one. -/
theorem errorLongPress_skipsNext (env : Env) (now : Nat) (s : Ctl)
    (hstate : s.state = PState.error) (hp : s.swPressed = true)
    (hh : s.swHandled = false)
    (hlong : LONG_PRESS_MS ≤ now - s.swPressStart) :
    handleEncoderSwitch env true now s =
      ({ (nextTrack env now s).1 with swHandled := true },
       (nextTrack env now s).2, [Gesture.longPress]) ∧
    (nextTrack env now s).1 =
      (playTrack env now s ((s.track + 1).tmod NUM_TRACKS)).1 ∧
    (nextTrack env now s).2 =
      AudioCmd.stop :: (playTrack env now s ((s.track + 1).tmod NUM_TRACKS)).2 ∧
    (0 ≤ s.track → s.track < NUM_TRACKS →
      (s.track + 1).tmod NUM_TRACKS ≠ s.track) := by
  refine ⟨?_, rfl, rfl, ?_⟩
  · simp [handleEncoderSwitch, hp, hh, hlong]
  · intro h0 h9
    simp only [NUM_TRACKS] at h9 ⊢
    rw [Int.tmod_eq_emod (by omega) (by omega)]
    omega

/-- Witness for C9. -/
theorem errorLongPress_skipsNext_witness :
    handleEncoderSwitch envAll true 500
        { ctl0 with state := .error, swPressed := true } =
      ({ (nextTrack envAll 500 { ctl0 with state := .error, swPressed := true }).1
            with swHandled := true },
       (nextTrack envAll 500 { ctl0 with state := .error, swPressed := true }).2,
       [Gesture.longPress]) ∧
    (({ ctl0 with state := .error, swPressed := true } : Ctl).track + 1).tmod
        NUM_TRACKS ≠
      ({ ctl0 with state := .error, swPressed := true } : Ctl).track :=
  ⟨(errorLongPress_skipsNext envAll 500 _ rfl rfl rfl (by decide)).1,
   (errorLongPress_skipsNext envAll 500 _ rfl rfl rfl (by decide)).2.2.2
     (by decide) (by decide)⟩

-- ═══════════ Claim C8 ═══════════

/-- C8: per render tick, an active unexpired volume flash renders first
(early return); otherwise an active unexpired track-color announcement
renders; otherwise the steady-state pattern of the current player state.
An expired layer is cleared and the next layer down is consulted in the
same tick, so a flash triggered over a track-color overlay suppresses the
track color until the flash expires, after which the track color resumes
if its own window is still open, else the steady-state animation. -/
theorem updateLED_priority (now : Nat) (s : Ctl) :
    (s.showingVolFlash = true → now - s.volFlashStart < VOLUME_FLASH_MS →
        updateLED now s = (s, .volFlash)) ∧
    (s.showingVolFlash = true → VOLUME_FLASH_MS ≤ now - s.volFlashStart →
        updateLED now s = updateLEDTrack now { s with showingVolFlash := false }) ∧
    (s.showingVolFlash = false → updateLED now s = updateLEDTrack now s) ∧
    (s.showingTrackColor = true → now - s.trackColorStart < TRACK_COLOR_MS →
        updateLEDTrack now s = (s, .trackColor)) ∧
    (s.showingTrackColor = true → TRACK_COLOR_MS ≤ now - s.trackColorStart →
        updateLEDTrack now s = updateLEDSteady now { s with showingTrackColor := false }) ∧
    (s.showingTrackColor = false → updateLEDTrack now s = updateLEDSteady now s) ∧
    ((updateLEDSteady now s).2 = steadyChoice s.state) ∧
    (s.showingVolFlash = true → s.showingTrackColor = true →
        now - s.volFlashStart < VOLUME_FLASH_MS →
        (updateLED now s).2 = .volFlash) ∧
    (s.showingVolFlash = true → s.showingTrackColor = true →
        VOLUME_FLASH_MS ≤ now - s.volFlashStart →
        now - s.trackColorStart < TRACK_COLOR_MS →
        (updateLED now s).2 = .trackColor) ∧
    (s.showingVolFlash = true → s.showingTrackColor = true →
        VOLUME_FLASH_MS ≤ now - s.volFlashStart →
        TRACK_COLOR_MS ≤ now - s.trackColorStart →
        (updateLED now s).2 = steadyChoice s.state) := by
  have hsteady : ∀ (u : Ctl), u.state = s.state →
      (updateLEDSteady now u).2 = steadyChoice s.state := by
    intro u hu
    unfold updateLEDSteady steadyChoice
    rw [hu]
    cases s.state <;> simp only
    split <;> rfl
  have h1 : s.showingVolFlash = true → now - s.volFlashStart < VOLUME_FLASH_MS →
      updateLED now s = (s, .volFlash) := by
    intro hf ht
    unfold updateLED
    rw [if_pos hf, if_neg (Nat.not_le.mpr ht)]
  have h2 : s.showingVolFlash = true → VOLUME_FLASH_MS ≤ now - s.volFlashStart →
      updateLED now s = updateLEDTrack now { s with showingVolFlash := false } := by
    intro hf ht
    unfold updateLED
    rw [if_pos hf, if_pos ht]
  have h3 : s.showingVolFlash = false →
      updateLED now s = updateLEDTrack now s := by
    intro hf
    unfold updateLED
    rw [if_neg (by simp [hf])]
  have h4 : s.showingTrackColor = true → now - s.trackColorStart < TRACK_COLOR_MS →
      updateLEDTrack now s = (s, .trackColor) := by
    intro hc ht
    unfold updateLEDTrack
    rw [if_pos hc, if_neg (Nat.not_le.mpr ht)]
  have h5 : s.showingTrackColor = true → TRACK_COLOR_MS ≤ now - s.trackColorStart →
      updateLEDTrack now s = updateLEDSteady now { s with showingTrackColor := false } := by
    intro hc ht
    unfold updateLEDTrack
    rw [if_pos hc, if_pos ht]
  have h6 : s.showingTrackColor = false →
      updateLEDTrack now s = updateLEDSteady now s := by
    intro hc
    unfold updateLEDTrack
    rw [if_neg (by simp [hc])]
  refine ⟨h1, h2, h3, h4, h5, h6, hsteady s rfl, ?_, ?_, ?_⟩
  · intro hf _ ht
    rw [h1 hf ht]
  · intro hf hc htf htc
    rw [h2 hf htf]
    have h4' : updateLEDTrack now { s with showingVolFlash := false } =
        ({ s with showingVolFlash := false }, .trackColor) := by
      unfold updateLEDTrack
      rw [if_pos (show ({ s with showingVolFlash := false } : Ctl).showingTrackColor = true from hc),
          if_neg (Nat.not_le.mpr htc)]
    rw [h4']
  · intro hf hc htf htc
    rw [h2 hf htf]
    have h5' : updateLEDTrack now { s with showingVolFlash := false } =
        updateLEDSteady now { s with showingVolFlash := false, showingTrackColor := false } := by
      unfold updateLEDTrack
      rw [if_pos (show ({ s with showingVolFlash := false } : Ctl).showingTrackColor = true from hc),
          if_pos htc]
    rw [h5']
    exact hsteady _ rfl

/-- Witness for C8: a state with both overlays armed, observed while the
flash is live, after the flash expires, and after both expire. -/
theorem updateLED_priority_witness :
    (updateLED 100 { ctl0 with showingVolFlash := true, showingTrackColor := true } =
      ({ ctl0 with showingVolFlash := true, showingTrackColor := true }, .volFlash)) ∧
    (updateLED 300 { ctl0 with showingVolFlash := true, showingTrackColor := true }).2 =
      .trackColor ∧
    (updateLED 1600 { ctl0 with showingVolFlash := true, showingTrackColor := true }).2 =
      steadyChoice ({ ctl0 with showingVolFlash := true, showingTrackColor := true } : Ctl).state :=
  ⟨(updateLED_priority 100 _).1 rfl (by decide),
   (updateLED_priority 300 _).2.2.2.2.2.2.2.2.1 rfl rfl (by decide) (by decide),
   (updateLED_priority 1600 _).2.2.2.2.2.2.2.2.2 rfl rfl (by decide) (by decide)⟩

-- ═══════════ Claim C10 ═══════════

/-- Lemma: `playTrack` puts the track index back in range whatever its argument
was, as long as it was in range before (the not-ready early return leaves
it untouched). -/
theorem playTrack_track_range (env : Env) (now : Nat) (s : Ctl) (i : Int)
    (h : trackInv s) : trackInv (playTrack env now s i).1 := by
  cases hsd : s.sdReady with
  | false => rw [playTrack_noSD env now s i hsd]; exact h
  | true =>
    have hci := clampIdx_range i
    cases hex : env.ex (clampIdx i) with
    | true =>
      cases hcok : env.connectOk (clampIdx i) with
      | true => rw [playTrack_found_ok env now s i hsd hex hcok]; exact hci
      | false => rw [playTrack_found_fail env now s i hsd hex hcok]; exact hci
    | false =>
      have hsr := searchTrack_range env.ex 9 0 (clampIdx i) (by omega) hci.1
        (show clampIdx i < 9 from hci.2)
      by_cases htries : 9 ≤ (searchTrack env.ex (clampIdx i) 0).2.1
      · rw [playTrack_missing_exhausted env now s i hsd hex htries]; exact hsr
      · have htries' := Nat.not_le.mp htries
        cases hcok : env.connectOk (searchTrack env.ex (clampIdx i) 0).1 with
        | true => rw [playTrack_missing_found_ok env now s i hsd hex htries' hcok]; exact hsr
        | false => rw [playTrack_missing_found_fail env now s i hsd hex htries' hcok]; exact hsr

theorem nextTrack_track_range (env : Env) (now : Nat) (s : Ctl)
    (h : trackInv s) : trackInv (nextTrack env now s).1 :=
  playTrack_track_range env now s _ h

theorem togglePlayPause_track_range (env : Env) (now : Nat) (s : Ctl)
    (h : trackInv s) : trackInv (togglePlayPause env now s).1 := by
  cases hst : s.state with
  | idle =>
    have := playTrack_track_range env now s s.track h
    simpa [togglePlayPause, hst] using this
  | error =>
    have := playTrack_track_range env now s s.track h
    simpa [togglePlayPause, hst] using this
  | playing => simpa [togglePlayPause, hst, enterSleep, trackInv] using h
  | paused => simpa [togglePlayPause, hst, trackInv] using h

theorem wakeUp_track_range (env : Env) (now : Nat) (clk : Bool) (s : Ctl)
    (h : trackInv s) : trackInv (wakeUp env now clk s).1 := by
  cases hst : s.state with
  | paused => simpa [wakeUp, hst, trackInv] using h
  | idle =>
    have := playTrack_track_range env now
      { s with sleeping := false, encLastCLK := clk, swPressed := false,
               swHandled := false } s.track (by simpa [trackInv] using h)
    simpa [wakeUp, hst] using this
  | playing => simpa [wakeUp, hst, trackInv] using h
  | error => simpa [wakeUp, hst, trackInv] using h

theorem handleEncoderSwitch_track_range (env : Env) (p : Bool) (now : Nat)
    (s : Ctl) (h : trackInv s) : trackInv (handleEncoderSwitch env p now s).1 := by
  have hn : ∀ s' : Ctl, trackInv s' → trackInv (nextTrack env now s').1 :=
    fun s' h' => nextTrack_track_range env now s' h'
  have ht : ∀ s' : Ctl, trackInv s' → trackInv (togglePlayPause env now s').1 :=
    fun s' h' => togglePlayPause_track_range env now s' h'
  unfold handleEncoderSwitch
  dsimp only
  repeat' split
  all_goals simp_all [trackInv]

/-- C10: every operation that can change the current track index keeps it
inside `[0, NUM_TRACKS)` — `playTrack` (which also maps any out-of-range
argument to 0 before use, last conjunct), `nextTrack`, `togglePlayPause`,
`wakeUp`, the button dispatcher and the end-of-track callback; `adjustVolume`
never touches it. -/
theorem trackIndex_invariant :
    (∀ (env : Env) (now : Nat) (s : Ctl) (i : Int),
        trackInv s → trackInv (playTrack env now s i).1) ∧
    (∀ (env : Env) (now : Nat) (s : Ctl),
        trackInv s → trackInv (nextTrack env now s).1) ∧
    (∀ (env : Env) (now : Nat) (s : Ctl),
        trackInv s → trackInv (togglePlayPause env now s).1) ∧
    (∀ (env : Env) (now : Nat) (clk : Bool) (s : Ctl),
        trackInv s → trackInv (wakeUp env now clk s).1) ∧
    (∀ (env : Env) (p : Bool) (now : Nat) (s : Ctl),
        trackInv s → trackInv (handleEncoderSwitch env p now s).1) ∧
    (∀ (env : Env) (now : Nat) (s : Ctl),
        trackInv s → trackInv (audioEofMp3 env now s).1) ∧
    (∀ (now : Nat) (s : Ctl) (delta : Int),
        trackInv s → trackInv (adjustVolume now s delta).1) ∧
    (∀ (env : Env) (now : Nat) (s : Ctl) (i : Int),
        i < 0 ∨ NUM_TRACKS ≤ i → playTrack env now s i = playTrack env now s 0) := by
  refine ⟨playTrack_track_range, nextTrack_track_range, togglePlayPause_track_range,
    wakeUp_track_range, handleEncoderSwitch_track_range, ?_, ?_, ?_⟩
  · exact fun env now s h => nextTrack_track_range env now s h
  · intro now s delta h
    unfold adjustVolume showVolumeFlash
    dsimp only
    split <;> simpa [trackInv] using h
  · intro env now s i hi
    have hc : clampIdx i = clampIdx 0 := by
      rw [clampIdx_of_out i hi]
      decide
    unfold playTrack
    rw [hc]

/-- Witness for C10: starting state with track 0, play an out-of-range
index. -/
theorem trackIndex_invariant_witness :
    trackInv (playTrack envAll 0 ctl0 99).1 ∧
    trackInv (nextTrack envAll 0 ctl0).1 ∧
    playTrack envAll 0 ctl0 99 = playTrack envAll 0 ctl0 0 :=
  ⟨trackIndex_invariant.1 envAll 0 ctl0 99 ⟨by decide, by decide⟩,
   trackIndex_invariant.2.1 envAll 0 ctl0 ⟨by decide, by decide⟩,
   trackIndex_invariant.2.2.2.2.2.2.2 envAll 0 ctl0 99 (by decide)⟩

-- ═══════════ Button press-cycle lemmas (C6) ═══════════

theorem nextTrack_sw (env : Env) (now : Nat) (s : Ctl) :
    (nextTrack env now s).1.swPressed = s.swPressed ∧
    (nextTrack env now s).1.swPressStart = s.swPressStart :=
  ⟨(playTrack_frame env now s _).2.1, (playTrack_frame env now s _).2.2.2.1⟩

/-- A poll seeing the press edge: record the start time, mark pressed,
clear handled; nothing fires yet. -/
theorem step_pressEdge (env : Env) (t0 : Nat) (s : Ctl)
    (hp : s.swPressed = false) :
    handleEncoderSwitch env true t0 s =
      ({ s with swPressStart := t0, swPressed := true, swHandled := false },
       [], []) := by
  simp [handleEncoderSwitch, hp, LONG_PRESS_MS]

/-- A poll during a hold whose long press was already handled: no-op. -/
theorem step_heldHandled (env : Env) (t : Nat) (s : Ctl)
    (hp : s.swPressed = true) (hh : s.swHandled = true) :
    handleEncoderSwitch env true t s = (s, [], []) := by
  simp [handleEncoderSwitch, hp, hh]

/-- A poll during a hold still below the long-press threshold: no-op. -/
theorem step_heldBelow (env : Env) (t : Nat) (s : Ctl)
    (hp : s.swPressed = true) (hh : s.swHandled = false)
    (hlt : t - s.swPressStart < LONG_PRESS_MS) :
    handleEncoderSwitch env true t s = (s, [], []) := by
  simp [handleEncoderSwitch, hp, hh, Nat.not_le.mpr hlt]

/-- The poll at which the hold crosses the threshold: the long-press
action fires once and the press is marked handled. -/
theorem step_heldFire (env : Env) (t : Nat) (s : Ctl)
    (hp : s.swPressed = true) (hh : s.swHandled = false)
    (hge : LONG_PRESS_MS ≤ t - s.swPressStart) :
    handleEncoderSwitch env true t s =
      ({ (nextTrack env t s).1 with swHandled := true },
       (nextTrack env t s).2, [Gesture.longPress]) := by
  simp [handleEncoderSwitch, hp, hh, hge]

/-- Releasing a press whose long-press was already handled: the press
record is cleared and no short press fires. -/
theorem step_releaseHandled (env : Env) (t : Nat) (s : Ctl)
    (hp : s.swPressed = true) (hh : s.swHandled = true) :
    handleEncoderSwitch env false t s =
      ({ s with swPressed := false, swHandled := false }, [], []) := by
  simp [handleEncoderSwitch, hp, hh]

theorem runSwitch_append (env : Env) :
    ∀ (l1 l2 : List (Bool × Nat)) (s : Ctl),
      runSwitch env s (l1 ++ l2) =
        ((runSwitch env (runSwitch env s l1).1 l2).1,
         (runSwitch env s l1).2.1 ++ (runSwitch env (runSwitch env s l1).1 l2).2.1,
         (runSwitch env s l1).2.2 ++ (runSwitch env (runSwitch env s l1).1 l2).2.2) := by
  intro l1
  induction l1 with
  | nil => intro l2 s; simp [runSwitch]
  | cons a l ih =>
    intro l2 s
    obtain ⟨p, t⟩ := a
    simp [runSwitch, ih]

/-- Running any number of held polls from a pressed, start-stamped state:
the press record survives, `handled` latches exactly when some poll is at
or past the threshold, and the long press fires exactly once — on the
first such poll, and only if the hold was not already handled. -/
theorem runSwitch_held (env : Env) (t0 : Nat) :
    ∀ (ts : List Nat) (s : Ctl), s.swPressed = true → s.swPressStart = t0 →
      (runSwitch env s (ts.map fun t => (true, t))).1.swPressed = true ∧
      (runSwitch env s (ts.map fun t => (true, t))).1.swPressStart = t0 ∧
      (runSwitch env s (ts.map fun t => (true, t))).1.swHandled =
        (s.swHandled || ts.any fun t => LONG_PRESS_MS ≤ t - t0) ∧
      (runSwitch env s (ts.map fun t => (true, t))).2.2 =
        (if s.swHandled = true then []
         else if (ts.any fun t => LONG_PRESS_MS ≤ t - t0) = true then [Gesture.longPress]
         else []) := by
  intro ts
  induction ts with
  | nil =>
    intro s hp hstart
    refine ⟨hp, hstart, by simp [runSwitch], ?_⟩
    cases hh : s.swHandled <;> simp [runSwitch, hh]
  | cons t ts ih =>
    intro s hp hstart
    cases hh : s.swHandled with
    | true =>
      simp only [List.map_cons, runSwitch]
      rw [step_heldHandled env t s hp hh]
      obtain ⟨i1, i2, i3, i4⟩ := ih s hp hstart
      refine ⟨i1, i2, ?_, ?_⟩
      · simp only at i3 ⊢
        rw [i3, hh]
        simp
      · simp only at i4 ⊢
        rw [i4, hh]
        simp
    | false =>
      by_cases hfire : LONG_PRESS_MS ≤ t - t0
      · simp only [List.map_cons, runSwitch]
        rw [step_heldFire env t s hp hh (by rw [hstart]; exact hfire)]
        have hfr := nextTrack_sw env t s
        obtain ⟨i1, i2, i3, i4⟩ := ih { (nextTrack env t s).1 with swHandled := true }
          (by simp [hfr.1, hp]) (by simp [hfr.2, hstart])
        refine ⟨i1, i2, ?_, ?_⟩
        · simp only at i3 ⊢
          rw [i3]
          simp [hfire]
        · simp only at i4 ⊢
          rw [i4]
          simp [hh, hfire]
      · simp only [List.map_cons, runSwitch]
        rw [step_heldBelow env t s hp hh (by rw [hstart]; exact Nat.not_le.mp hfire)]
        obtain ⟨i1, i2, i3, i4⟩ := ih s hp hstart
        refine ⟨i1, i2, ?_, ?_⟩
        · simp only at i3 ⊢
          rw [i3]
          simp [hh, hfire]
        · simp only at i4 ⊢
          rw [i4]
          simp [hh, hfire]

-- ═══════════ Claim C6 ═══════════

/-- C6: a press cycle — press edge at `t0`, any number of held polls, one
release at `tr` — in which some held poll is at least the long-press
threshold after `t0` performs exactly one long-press action and zero
short-press actions, no matter how long the hold continues past the
threshold. -/
theorem longPress_exactlyOnce (env : Env) (s : Ctl) (t0 tr : Nat) (ts : List Nat)
    (hp : s.swPressed = false)
    (hthresh : ∃ t ∈ ts, LONG_PRESS_MS ≤ t - t0) :
    (runSwitch env s ((true, t0) :: (ts.map fun t => (true, t)) ++ [(false, tr)])).2.2 =
      [Gesture.longPress] ∧
    ((runSwitch env s ((true, t0) :: (ts.map fun t => (true, t)) ++ [(false, tr)])).2.2.count
        Gesture.longPress = 1 ∧
     (runSwitch env s ((true, t0) :: (ts.map fun t => (true, t)) ++ [(false, tr)])).2.2.count
        Gesture.shortPress = 0) := by
  have hany : (ts.any fun t => LONG_PRESS_MS ≤ t - t0) = true := by
    obtain ⟨t, ht, hge⟩ := hthresh
    exact List.any_eq_true.mpr ⟨t, ht, by simpa using hge⟩
  have h1 := step_pressEdge env t0 s hp
  set s1 : Ctl := { s with swPressStart := t0, swPressed := true, swHandled := false }
    with hs1
  have hheld := runSwitch_held env t0 ts s1 rfl rfl
  set a := runSwitch env s1 (ts.map fun t => (true, t)) with ha
  have hga : a.2.2 = [Gesture.longPress] := by
    rw [hheld.2.2.2]
    simp [hany]
  have hrel := step_releaseHandled env tr a.1 hheld.1
    (by rw [hheld.2.2.1]; simp [hany])
  have heq : (runSwitch env s
      ((true, t0) :: (ts.map fun t => (true, t)) ++ [(false, tr)])).2.2 =
      [Gesture.longPress] := by
    simp only [runSwitch]
    rw [h1]
    dsimp only
    simp only [List.append_eq]
    rw [runSwitch_append env (ts.map fun t => (true, t)) [(false, tr)] s1]
    dsimp only
    rw [← ha]
    simp only [runSwitch]
    rw [hrel]
    dsimp only
    rw [hga]
    simp
  exact ⟨heq, by rw [heq]; rfl, by rw [heq]; rfl⟩

/-- Witness for C6: press at 0 ms, one held poll at 600 ms, release at
700 ms. -/
theorem longPress_exactlyOnce_witness :
    (runSwitch envAll ctl0
        ((true, 0) :: (([600] : List Nat).map fun t => (true, t)) ++ [(false, 700)])).2.2 =
      [Gesture.longPress] ∧
    ((runSwitch envAll ctl0
        ((true, 0) :: (([600] : List Nat).map fun t => (true, t)) ++ [(false, 700)])).2.2.count
        Gesture.longPress = 1 ∧
     (runSwitch envAll ctl0
        ((true, 0) :: (([600] : List Nat).map fun t => (true, t)) ++ [(false, 700)])).2.2.count
        Gesture.shortPress = 0) :=
  longPress_exactlyOnce envAll ctl0 0 700 [600] rfl
    ⟨600, by simp, by decide⟩
